import Mathlib

/-!
Verification development for the `pallet-swaps` repository: a Substrate
fungible-token ledger (`src/fungible/src/lib.rs`) and a constant-product
swap pallet (`src/src/lib.rs`) built on it.

Modelling conventions:
* The mock runtime (`src/src/mock.rs`) instantiates every numeric type
  (`TokenBalance`, `TokenId`, `AccountId`, `Balance`, `SwapId`,
  `BlockNumber`) at `u64`, so all of them are embedded as `Nat` with
  arithmetic reduced modulo `U = 2^64` exactly where the Rust `u64`
  operators wrap.  Substrate runtimes of this era are compiled in release
  mode without overflow checks, so `+=`, `-=` and `*` on storage values
  wrap; `/` by zero and a failed `unwrap` panic, which is embedded as
  `Option.none`.
* Storage maps (`Balances`, `Allowance`, `TotalSupply`, `TokenToSwap`,
  `Swaps`) are association lists with `alookup` defaulting to zero,
  mirroring Substrate storage-map semantics.
* Dispatchable calls return `Except DErr Unit × State`: `decl_module`-era
  dispatch performs no storage rollback when an extrinsic returns
  `DispatchError`, so the state component carries every mutation made
  before the failing step.
-/

namespace PalletSwaps

/-- `2 ^ 64`, the modulus of the `u64` arithmetic used by the mock runtime. -/
def U : Nat := 18446744073709551616

/-- Wrapping `u64` addition. -/
def wadd (a b : Nat) : Nat := (a + b) % U

/-- Wrapping `u64` subtraction (for `a < U`, `b < U` this is `a.wrapping_sub b`). -/
def wsub (a b : Nat) : Nat := (a + U - b % U) % U

/-- Wrapping `u64` multiplication. -/
def wmul (a b : Nat) : Nat := (a * b) % U

/-- Saturating cast through `u64` (`SaturatedConversion`); with both balance
domains at `u64` in the mock this is the identity on in-range values.  Embeds
the source's `convert`/`unconvert` pair. -/
def sat64 (n : Nat) : Nat := min n (U - 1)

/-- First-match association-list lookup (Substrate storage map read). -/
def alookup? {κ ν : Type} [DecidableEq κ] : List (κ × ν) → κ → Option ν
  | [], _ => none
  | (k', v) :: rest, k => if k = k' then some v else alookup? rest k

/-- Association-list insert-or-update (Substrate storage map write). -/
def aset {κ ν : Type} [DecidableEq κ] : List (κ × ν) → κ → ν → List (κ × ν)
  | [], k, v => [(k, v)]
  | (k', v') :: rest, k, v =>
    if k = k' then (k', v) :: rest else (k', v') :: aset rest k v

/-- Storage map read with the zero default used by Substrate value maps. -/
def alookup {κ : Type} [DecidableEq κ] (l : List (κ × Nat)) (k : κ) : Nat :=
  (alookup? l k).getD 0

/-- Dispatch errors of both pallets, plus the string error of `create_swap`
and the currency collaborator's insufficient-balance failure, flattened into
one type as `DispatchError` flattens them in the runtime. -/
inductive DErr
  | CreationOverflow
  | TransferZeroAmount
  | InsufficientFunds
  | InsufficientAllowance
  | Deadline
  | ZeroTokens
  | ZeroAmount
  | NoSwapExists
  | SwapAlreadyExists
  | RequestedZeroLiquidity
  | TooManyTokens
  | TooLowLiquidity
  | NoCurrencySwapped
  | NoTokensSwapped
  | BurnZeroShares
  | NoLiquidity
  | NotEnoughCurrency
  | NotEnoughTokens
  | TooExpensiveCurrency
  | TooExpensiveTokens
  | Overflow
  | CurrencyInsufficientBalance
  deriving DecidableEq

/-- Storage of the fungible pallet (`decl_storage!` in
`src/fungible/src/lib.rs`): `Balances`, `Allowance`, `TotalSupply`,
`TokenCount`. -/
structure FungibleState where
  balances : List ((Nat × Nat) × Nat)
  allowances : List ((Nat × Nat × Nat) × Nat)
  totalSupply : List (Nat × Nat)
  tokenCount : Nat
  deriving DecidableEq

/-- The empty genesis storage of the fungible pallet. -/
def emptyF : FungibleState := ⟨[], [], [], 0⟩

/-- All stored `u64` values are below `2 ^ 64`; this is forced by the Rust
types and is assumed by theorems that turn wrapping arithmetic into exact
arithmetic. -/
def WFf (s : FungibleState) : Prop :=
  (∀ p ∈ s.balances, p.2 < U) ∧ (∀ p ∈ s.allowances, p.2 < U) ∧
    (∀ p ∈ s.totalSupply, p.2 < U)

/-- Sum of all per-owner balances of asset `id` (invariant I1's right-hand
side). -/
def balSum (l : List ((Nat × Nat) × Nat)) (id : Nat) : Nat :=
  (l.filter (fun p => decide (p.1.1 = id))).foldr (fun p acc => p.2 + acc) 0

/-- `Module::mint` (`src/fungible/src/lib.rs:173`): unconditionally adds
`amount` to the balance and the total supply with `u64` `+=` and returns
`Ok(())`; there is no overflow check. -/
def mint (s : FungibleState) (id toA amount : Nat) :
    Except DErr Unit × FungibleState :=
  let s1 := { s with
    balances := aset s.balances (id, toA)
      (wadd (alookup s.balances (id, toA)) amount) }
  let s2 := { s1 with
    totalSupply := aset s1.totalSupply id
      (wadd (alookup s1.totalSupply id) amount) }
  (.ok (), s2)

/-- `Module::burn` (`src/fungible/src/lib.rs:187`): unconditionally subtracts
`amount` from the balance and the total supply with `u64` `-=` and returns
`Ok(())`; there is no balance check, so the subtraction wraps. -/
def burn (s : FungibleState) (id fromA amount : Nat) :
    Except DErr Unit × FungibleState :=
  let s1 := { s with
    balances := aset s.balances (id, fromA)
      (wsub (alookup s.balances (id, fromA)) amount) }
  let s2 := { s1 with
    totalSupply := aset s1.totalSupply id
      (wsub (alookup s1.totalSupply id) amount) }
  (.ok (), s2)

/-- `Module::create_token` (`src/fungible/src/lib.rs:201`): allocates the next
token id, inserts the initial balance and supply, bumps the counter.  The
`checked_add(One::one()).unwrap()` panics when the id counter would overflow
`u64`; the panic is embedded as `none`. -/
def create_token (s : FungibleState) (who total_supply : Nat) :
    Option (FungibleState × Nat) :=
  let id := s.tokenCount
  if id + 1 < U then
    some ({ s with
      balances := aset s.balances (id, who) total_supply
      totalSupply := aset s.totalSupply id total_supply
      tokenCount := id + 1 }, id)
  else none

/-- `Module::do_transfer` (`src/fungible/src/lib.rs:218`): fails with
`InsufficientFunds` if the sender's balance is below `amount`, otherwise
debits the sender and credits the recipient (the credit wraps at `2 ^ 64`).
The recipient's balance is read after the debit, which makes a self-transfer
a no-op. -/
def do_transfer (s : FungibleState) (id fromA toA amount : Nat) :
    Except DErr Unit × FungibleState :=
  let from_balance := alookup s.balances (id, fromA)
  if from_balance < amount then (.error .InsufficientFunds, s)
  else
    let s1 := { s with
      balances := aset s.balances (id, fromA)
        (wsub (alookup s.balances (id, fromA)) amount) }
    let s2 := { s1 with
      balances := aset s1.balances (id, toA)
        (wadd (alookup s1.balances (id, toA)) amount) }
    (.ok (), s2)

/-- Dispatchable `transfer` (`src/fungible/src/lib.rs:91`): rejects a zero
amount with `TransferZeroAmount`, then delegates to `do_transfer`. -/
def transfer (s : FungibleState) (sender id toA amount : Nat) :
    Except DErr Unit × FungibleState :=
  if amount = 0 then (.error .TransferZeroAmount, s)
  else do_transfer s id sender toA amount

/-- Dispatchable `transfer_from` (`src/fungible/src/lib.rs:106`): rejects a
zero amount, then checks the `(id, owner, sender)` allowance, then delegates
to `do_transfer`; only after that succeeds is the allowance decremented. -/
def transfer_from (s : FungibleState) (sender id owner toA amount : Nat) :
    Except DErr Unit × FungibleState :=
  if amount = 0 then (.error .TransferZeroAmount, s)
  else if alookup s.allowances (id, owner, sender) < amount then
    (.error .InsufficientAllowance, s)
  else
    let r := do_transfer s id owner toA amount
    match r.1 with
    | .error e => (.error e, r.2)
    | .ok _ =>
      (.ok (), { r.2 with
        allowances := aset r.2.allowances (id, owner, sender)
          (wsub (alookup r.2.allowances (id, owner, sender)) amount) })

/-- Dispatchable `approve` (`src/fungible/src/lib.rs:131`): rejects a zero
amount, otherwise adds `amount` to the existing `(id, sender, spender)`
allowance with `u64` `+=` (additive, not set, semantics). -/
def approve (s : FungibleState) (sender id spender amount : Nat) :
    Except DErr Unit × FungibleState :=
  if amount = 0 then (.error .TransferZeroAmount, s)
  else
    (.ok (), { s with
      allowances := aset s.allowances (id, sender, spender)
        (wadd (alookup s.allowances (id, sender, spender)) amount) })

/-- The `Swap` record stored per pool (`src/src/lib.rs:25`). -/
structure SwapRec where
  token_id : Nat
  swap_token : Nat
  account : Nat
  deriving DecidableEq

/-- Combined runtime state seen by the swap pallet: the current block number,
the external currency collaborator's free balances, the fungible pallet
storage, and the swap pallet's own storage (`TokenToSwap`, `Swaps`,
`SwapCount`). -/
structure World where
  blockNumber : Nat
  currency : List (Nat × Nat)
  fungible : FungibleState
  tokenToSwap : List (Nat × Nat)
  swaps : List (Nat × SwapRec)
  swapCount : Nat
  deriving DecidableEq

/-- Modelled from the spec: the deterministic, collision-free reserve-account
derivation (spec §3, §9).  The source derives it as
`MODULE_ID.into_sub_account(swap_token_id)` whose encoding lives in
`sp_runtime`, outside this repository; any injective map clear of small user
account ids is a faithful model. -/
def sub_account (swap_token_id : Nat) : Nat := 4294967296 + swap_token_id

/-- Modelled from the spec: the external base-currency collaborator's
`transfer` (spec §6) — it fails when the sender's free balance is below the
amount and otherwise moves the amount; existential-deposit/keep-alive rules
of the concrete `pallet_balances` implementation are out of scope (spec §1)
and are not exercised by any theorem below. -/
def currency_transfer (w : World) (fromA toA amount : Nat) :
    Except DErr Unit × World :=
  let fb := alookup w.currency fromA
  if fb < amount then (.error .CurrencyInsufficientBalance, w)
  else
    let c1 := aset w.currency fromA (fb - amount)
    let c2 := aset c1 toA (alookup c1 toA + amount)
    (.ok (), { w with currency := c2 })

/-- Dispatchable `create_swap` (`src/src/lib.rs:129`): rejects an already
pooled token with `SwapAlreadyExists`, allocates the next swap id (the
`checked_add` failure surfaces as a dispatch error), creates the zero-supply
share token (whose own counter `unwrap` panic is `none`), derives the
reserve account and records the pool. -/
def create_swap (w : World) (sender token_id : Nat) :
    Option (Except DErr Unit × World) :=
  if (alookup? w.tokenToSwap token_id).isSome then
    some (.error .SwapAlreadyExists, w)
  else
    let swap_id := w.swapCount
    if swap_id + 1 < U then
      match create_token w.fungible sender 0 with
      | none => none
      | some (f1, swap_token_id) =>
        let account := sub_account swap_token_id
        some (.ok (), { w with
          fungible := f1
          tokenToSwap := aset w.tokenToSwap token_id swap_id
          swaps := aset w.swaps swap_id ⟨token_id, swap_token_id, account⟩
          swapCount := swap_id + 1 })
    else some (.error .Overflow, w)

/-- `get_output_price` (`src/src/lib.rs:435`):
`input_reserve * output_amount * 1000 / ((output_reserve - output_amount) * 997) + 1`
on `u64`: the subtraction wraps when `output_amount > output_reserve`, every
multiplication wraps at `2 ^ 64`, and a zero denominator makes the division
panic (embedded as `none`). -/
def get_output_price (output_amount input_reserve output_reserve : Nat) :
    Option Nat :=
  let numerator := wmul (wmul input_reserve output_amount) 1000
  let denominator := wmul (wsub output_reserve output_amount) 997
  if denominator = 0 then none
  else some (wadd (numerator / denominator) 1)

/-- `get_input_price` (`src/src/lib.rs:446`):
`(input_amount * 997) * output_reserve / (input_reserve * 1000 + input_amount * 997)`
on `u64`: every multiplication and the addition wrap at `2 ^ 64`, and a zero
denominator makes the division panic (embedded as `none`). -/
def get_input_price (input_amount input_reserve output_reserve : Nat) :
    Option Nat :=
  let input_amount_with_fee := wmul input_amount 997
  let numerator := wmul input_amount_with_fee output_reserve
  let denominator := wadd (wmul input_reserve 1000) input_amount_with_fee
  if denominator = 0 then none
  else some (numerator / denominator)

/-- Dispatchable `add_liquidity` (`src/src/lib.rs:159`).  Checks run in source
order (`deadline > now`, `max_tokens > 0`, `currency_amount > 0`, pool
exists, then the seeded/empty split on the share supply).  In the seeded
branch the division by the currency reserve panics when that reserve is zero
(`none`); on success the sequence is: currency transfer in, share mint, token
transfer in — with no rollback, a failing token transfer leaves the first two
mutations in place. -/
def add_liquidity (w : World)
    (who swap_id currency_amount min_liquidity max_tokens deadline : Nat) :
    Option (Except DErr Unit × World) :=
  if deadline ≤ w.blockNumber then some (.error .Deadline, w)
  else if max_tokens = 0 then some (.error .ZeroTokens, w)
  else if currency_amount = 0 then some (.error .ZeroAmount, w)
  else match alookup? w.swaps swap_id with
  | none => some (.error .NoSwapExists, w)
  | some swap =>
    let total_liquidity := alookup w.fungible.totalSupply swap.swap_token
    if 0 < total_liquidity then
      if min_liquidity = 0 then some (.error .RequestedZeroLiquidity, w)
      else
        let swap_balance := sat64 (alookup w.currency swap.account)
        let token_reserve :=
          alookup w.fungible.balances (swap.token_id, swap.account)
        if swap_balance = 0 then none
        else
          let token_amount :=
            wmul (sat64 currency_amount) token_reserve / swap_balance
          let liquidity_minted :=
            wmul (sat64 currency_amount) total_liquidity / swap_balance
          if max_tokens < token_amount then some (.error .TooManyTokens, w)
          else if liquidity_minted < min_liquidity then
            some (.error .TooLowLiquidity, w)
          else
            match currency_transfer w who swap.account currency_amount with
            | (.error e, w1) => some (.error e, w1)
            | (.ok _, w1) =>
              let f2 := (mint w1.fungible swap.swap_token who liquidity_minted).2
              let w2 := { w1 with fungible := f2 }
              match do_transfer w2.fungible swap.token_id who swap.account
                  token_amount with
              | (.error e, f3) => some (.error e, { w2 with fungible := f3 })
              | (.ok _, f3) => some (.ok (), { w2 with fungible := f3 })
    else
      let token_amount := max_tokens
      let this := swap.account
      match currency_transfer w who this currency_amount with
      | (.error e, w1) => some (.error e, w1)
      | (.ok _, w1) =>
        let initial_liquidity := sat64 (alookup w1.currency this)
        let f2 := (mint w1.fungible swap.swap_token who initial_liquidity).2
        let w2 := { w1 with fungible := f2 }
        match do_transfer w2.fungible swap.token_id who this token_amount with
        | (.error e, f3) => some (.error e, { w2 with fungible := f3 })
        | (.ok _, f3) => some (.ok (), { w2 with fungible := f3 })

/-- Dispatchable `remove_liquidity` (`src/src/lib.rs:210`): checks in source
order, proportional payouts computed with wrapping multiplications, then
share burn, currency transfer out, token transfer out (no rollback). -/
def remove_liquidity (w : World)
    (who swap_id shares_to_burn min_currency min_tokens deadline : Nat) :
    Option (Except DErr Unit × World) :=
  if deadline ≤ w.blockNumber then some (.error .Deadline, w)
  else if shares_to_burn = 0 then some (.error .BurnZeroShares, w)
  else match alookup? w.swaps swap_id with
  | none => some (.error .NoSwapExists, w)
  | some swap =>
    let total_liquidity := alookup w.fungible.totalSupply swap.swap_token
    if total_liquidity = 0 then some (.error .NoLiquidity, w)
    else
      let token_reserve :=
        alookup w.fungible.balances (swap.token_id, swap.account)
      let swap_balance := alookup w.currency swap.account
      let currency_amount :=
        wmul shares_to_burn (sat64 swap_balance) / total_liquidity
      let token_amount := wmul shares_to_burn token_reserve / total_liquidity
      if sat64 currency_amount < min_currency then
        some (.error .NotEnoughCurrency, w)
      else if token_amount < min_tokens then some (.error .NotEnoughTokens, w)
      else
        let f1 := (burn w.fungible swap.swap_token who shares_to_burn).2
        let w1 := { w with fungible := f1 }
        match currency_transfer w1 swap.account who (sat64 currency_amount) with
        | (.error e, w2) => some (.error e, w2)
        | (.ok _, w2) =>
          match do_transfer w2.fungible swap.token_id swap.account who
              token_amount with
          | (.error e, f3) => some (.error e, { w2 with fungible := f3 })
          | (.ok _, f3) => some (.ok (), { w2 with fungible := f3 })

/-- Dispatchable `currency_to_tokens_input` (`src/src/lib.rs:256`): the buyer
pays `currency` to the reserve account, the recipient receives
`get_input_price` tokens from the reserve. -/
def currency_to_tokens_input (w : World)
    (buyer swap_id currency min_tokens deadline recipient : Nat) :
    Option (Except DErr Unit × World) :=
  if deadline ≤ w.blockNumber then some (.error .Deadline, w)
  else if currency = 0 then some (.error .NoCurrencySwapped, w)
  else if min_tokens = 0 then some (.error .NoTokensSwapped, w)
  else match alookup? w.swaps swap_id with
  | none => some (.error .NoSwapExists, w)
  | some swap =>
    let token_reserve :=
      alookup w.fungible.balances (swap.token_id, swap.account)
    let swap_balance := alookup w.currency swap.account
    match get_input_price (sat64 currency) (sat64 swap_balance) token_reserve with
    | none => none
    | some tokens_bought =>
      if tokens_bought < min_tokens then some (.error .NotEnoughTokens, w)
      else
        match currency_transfer w buyer swap.account currency with
        | (.error e, w1) => some (.error e, w1)
        | (.ok _, w1) =>
          match do_transfer w1.fungible swap.token_id swap.account recipient
              tokens_bought with
          | (.error e, f2) => some (.error e, { w1 with fungible := f2 })
          | (.ok _, f2) => some (.ok (), { w1 with fungible := f2 })

/-- Dispatchable `currency_to_tokens_output` (`src/src/lib.rs:294`): exact
token output, maximum currency input; note the deadline check here is
`deadline >= now`. -/
def currency_to_tokens_output (w : World)
    (buyer swap_id tokens_bought max_currency deadline recipient : Nat) :
    Option (Except DErr Unit × World) :=
  if deadline < w.blockNumber then some (.error .Deadline, w)
  else if tokens_bought = 0 then some (.error .NoTokensSwapped, w)
  else if max_currency = 0 then some (.error .NoCurrencySwapped, w)
  else match alookup? w.swaps swap_id with
  | none => some (.error .NoSwapExists, w)
  | some swap =>
    let token_reserve :=
      alookup w.fungible.balances (swap.token_id, swap.account)
    let swap_balance := alookup w.currency swap.account
    match get_output_price tokens_bought (sat64 swap_balance) token_reserve with
    | none => none
    | some currency_sold =>
      if max_currency < sat64 currency_sold then
        some (.error .TooExpensiveCurrency, w)
      else
        match currency_transfer w buyer swap.account (sat64 currency_sold) with
        | (.error e, w1) => some (.error e, w1)
        | (.ok _, w1) =>
          match do_transfer w1.fungible swap.token_id swap.account recipient
              tokens_bought with
          | (.error e, f2) => some (.error e, { w1 with fungible := f2 })
          | (.ok _, f2) => some (.ok (), { w1 with fungible := f2 })

/-- Dispatchable `tokens_to_currency_input` (`src/src/lib.rs:332`): the buyer
sells an exact amount of tokens into the reserve; the recipient receives the
`get_input_price` currency from the reserve account. -/
def tokens_to_currency_input (w : World)
    (buyer swap_id tokens_sold min_currency deadline recipient : Nat) :
    Option (Except DErr Unit × World) :=
  if deadline < w.blockNumber then some (.error .Deadline, w)
  else if tokens_sold = 0 then some (.error .NoTokensSwapped, w)
  else if min_currency = 0 then some (.error .NoCurrencySwapped, w)
  else match alookup? w.swaps swap_id with
  | none => some (.error .NoSwapExists, w)
  | some swap =>
    let token_reserve :=
      alookup w.fungible.balances (swap.token_id, swap.account)
    let swap_balance := alookup w.currency swap.account
    match get_input_price tokens_sold token_reserve (sat64 swap_balance) with
    | none => none
    | some currency_bought =>
      if currency_bought < sat64 min_currency then
        some (.error .NotEnoughCurrency, w)
      else
        match currency_transfer w swap.account recipient
            (sat64 currency_bought) with
        | (.error e, w1) => some (.error e, w1)
        | (.ok _, w1) =>
          match do_transfer w1.fungible swap.token_id buyer swap.account
              tokens_sold with
          | (.error e, f2) => some (.error e, { w1 with fungible := f2 })
          | (.ok _, f2) => some (.ok (), { w1 with fungible := f2 })

/-- Dispatchable `tokens_to_currency_output` (`src/src/lib.rs:370`): exact
currency output, maximum tokens input.  Note the source pays the bought
currency to the authenticated `buyer` and debits the sold tokens from the
`recipient` parameter (`src/src/lib.rs:393-394`). -/
def tokens_to_currency_output (w : World)
    (buyer swap_id currency_bought max_tokens deadline recipient : Nat) :
    Option (Except DErr Unit × World) :=
  if deadline < w.blockNumber then some (.error .Deadline, w)
  else if max_tokens = 0 then some (.error .NoTokensSwapped, w)
  else if currency_bought = 0 then some (.error .NoCurrencySwapped, w)
  else match alookup? w.swaps swap_id with
  | none => some (.error .NoSwapExists, w)
  | some swap =>
    let token_reserve :=
      alookup w.fungible.balances (swap.token_id, swap.account)
    let swap_balance := alookup w.currency swap.account
    match get_output_price (sat64 currency_bought) token_reserve
        (sat64 swap_balance) with
    | none => none
    | some tokens_sold =>
      if max_tokens < tokens_sold then some (.error .TooExpensiveTokens, w)
      else
        match currency_transfer w swap.account buyer currency_bought with
        | (.error e, w1) => some (.error e, w1)
        | (.ok _, w1) =>
          match do_transfer w1.fungible swap.token_id recipient swap.account
              tokens_sold with
          | (.error e, f2) => some (.error e, { w1 with fungible := f2 })
          | (.ok _, f2) => some (.ok (), { w1 with fungible := f2 })

/-! ### Concrete scenario states used by the claim theorems. -/

/-- A ledger state at the `u64` ceiling: account 1 holds `2 ^ 64 - 1` of
asset 0, which is also the whole supply (reachable via
`create_token(1, u64::MAX)`). -/
def sMaxed : FungibleState := ⟨[((0, 1), U - 1)], [], [(0, U - 1)], 1⟩

/-- Scenario-C-like ledger: asset 0 with supply 42 owned by account 1, and an
allowance of 20 from owner 1 to spender 2. -/
def sAllow : FungibleState := ⟨[((0, 1), 42)], [((0, 1, 2), 20)], [(0, 42)], 1⟩

/-- Scenario-B ledger: asset 0 with supply 42 owned by account 1. -/
def sOwn : FungibleState := ⟨[((0, 1), 42)], [], [(0, 42)], 1⟩

/-- Ledger where the recipient of a transfer sits at the `u64` ceiling:
account 1 holds 1 and account 2 holds `2 ^ 64 - 1` of asset 0. -/
def sCeil : FungibleState := ⟨[((0, 1), 1), ((0, 2), U - 1)], [], [(0, U)], 1⟩

/-- The reserve account of the pool whose share token is token 1. -/
def resAcct : Nat := sub_account 1

/-- A seeded pool world as produced by the repository's own test setup:
pool 0 trades token 0 against the currency, share token 1, reserves of
420 currency and 42 tokens, 420 shares held by account 1, and account 2
holding 10000 currency but no pooled tokens. -/
def wSeeded : World :=
  { blockNumber := 0
    currency := [(1, 9580), (2, 10000), (resAcct, 420)]
    fungible := ⟨[((0, 1), 0), ((0, resAcct), 42), ((1, 1), 420)], [],
      [(0, 42), (1, 420)], 2⟩
    tokenToSwap := [(0, 0)]
    swaps := [(0, ⟨0, 1, resAcct⟩)]
    swapCount := 1 }

/-- The seeded pool world extended so that accounts 2 and 3 also hold pooled
tokens (42 and 30 respectively) and account 3 holds 5000 currency. -/
def wTraders : World :=
  { blockNumber := 0
    currency := [(1, 9580), (2, 10000), (3, 5000), (resAcct, 420)]
    fungible := ⟨[((0, 1), 0), ((0, 2), 42), ((0, 3), 30),
      ((0, resAcct), 42), ((1, 1), 420)], [], [(0, 114), (1, 420)], 2⟩
    tokenToSwap := [(0, 0)]
    swaps := [(0, ⟨0, 1, resAcct⟩)]
    swapCount := 1 }

/-! ### Map and wrapping-arithmetic lemmas. -/

theorem alookup?_aset_self {κ ν : Type} [DecidableEq κ] (l : List (κ × ν))
    (k : κ) (v : ν) : alookup? (aset l k v) k = some v := by
  induction l with
  | nil => simp [aset, alookup?]
  | cons p rest ih =>
    obtain ⟨k', v'⟩ := p
    by_cases h : k = k'
    · simp [aset, alookup?, h]
    · simp [aset, alookup?, h, ih]

theorem alookup?_aset_ne {κ ν : Type} [DecidableEq κ] (l : List (κ × ν))
    (k k₂ : κ) (v : ν) (h : k₂ ≠ k) :
    alookup? (aset l k v) k₂ = alookup? l k₂ := by
  induction l with
  | nil => simp [aset, alookup?, h]
  | cons p rest ih =>
    obtain ⟨k', v'⟩ := p
    by_cases hk : k = k'
    · subst hk
      simp [aset, alookup?, h]
    · by_cases h2 : k₂ = k'
      · simp [aset, alookup?, hk, h2]
      · simp [aset, alookup?, hk, h2, ih]

theorem alookup_aset_self {κ : Type} [DecidableEq κ] (l : List (κ × Nat))
    (k : κ) (v : Nat) : alookup (aset l k v) k = v := by
  simp [alookup, alookup?_aset_self]

theorem alookup_aset_ne {κ : Type} [DecidableEq κ] (l : List (κ × Nat))
    (k k₂ : κ) (v : Nat) (h : k₂ ≠ k) :
    alookup (aset l k v) k₂ = alookup l k₂ := by
  simp [alookup, alookup?_aset_ne l k k₂ v h]

theorem alookup_lt {κ : Type} [DecidableEq κ] (l : List (κ × Nat)) (k : κ)
    (B : Nat) (hB : 0 < B) (h : ∀ p ∈ l, p.2 < B) : alookup l k < B := by
  induction l with
  | nil => simpa [alookup, alookup?] using hB
  | cons p rest ih =>
    obtain ⟨k', v⟩ := p
    by_cases hk : k = k'
    · have := h (k', v) (by simp)
      simpa [alookup, alookup?, hk] using this
    · have := ih (fun q hq => h q (by simp [hq]))
      simpa [alookup, alookup?, hk] using this

theorem wsub_eq_sub {a b : Nat} (hba : b ≤ a) (ha : a < U) :
    wsub a b = a - b := by
  have hb : b < U := lt_of_le_of_lt hba ha
  unfold wsub
  rw [Nat.mod_eq_of_lt hb]
  have h1 : a + U - b = a - b + U := by omega
  rw [h1, Nat.add_mod_right]
  exact Nat.mod_eq_of_lt (by omega)

theorem wadd_eq_add {a b : Nat} (h : a + b < U) : wadd a b = a + b :=
  Nat.mod_eq_of_lt h

theorem do_transfer_err (s : FungibleState) (id fromA toA amount : Nat)
    (h : alookup s.balances (id, fromA) < amount) :
    do_transfer s id fromA toA amount = (.error .InsufficientFunds, s) := by
  unfold do_transfer
  rw [if_pos h]

theorem do_transfer_ok_fst (s : FungibleState) (id fromA toA amount : Nat)
    (h : amount ≤ alookup s.balances (id, fromA)) :
    (do_transfer s id fromA toA amount).1 = .ok () := by
  unfold do_transfer
  rw [if_neg (Nat.not_lt.mpr h)]

theorem do_transfer_ok_balances (s : FungibleState) (id fromA toA amount : Nat)
    (h : amount ≤ alookup s.balances (id, fromA)) :
    (do_transfer s id fromA toA amount).2.balances
      = aset
          (aset s.balances (id, fromA)
            (wsub (alookup s.balances (id, fromA)) amount))
          (id, toA)
          (wadd
            (alookup
              (aset s.balances (id, fromA)
                (wsub (alookup s.balances (id, fromA)) amount))
              (id, toA))
            amount) := by
  unfold do_transfer
  rw [if_neg (Nat.not_lt.mpr h)]

theorem do_transfer_allowances (s : FungibleState) (id fromA toA amount : Nat) :
    (do_transfer s id fromA toA amount).2.allowances = s.allowances := by
  by_cases h : alookup s.balances (id, fromA) < amount
  · rw [do_transfer_err s id fromA toA amount h]
  · unfold do_transfer
    rw [if_neg h]

/-! ### Claim theorems. -/

/-- C7: `transfer_from` fails with the zero-amount error when `amount = 0`,
else with `InsufficientAllowance` when the `(id, owner, spender)` allowance
is below `amount`, else delegates to `do_transfer` from `owner` to the
recipient; the allowance is decremented by `amount` exactly when that
transfer succeeds and the whole state is untouched whenever it fails. -/
theorem transfer_from_spec (s : FungibleState)
    (id owner spender toA amount : Nat) (hWF : WFf s) :
    (amount = 0 →
      transfer_from s spender id owner toA amount
        = (.error .TransferZeroAmount, s)) ∧
    (amount ≠ 0 → alookup s.allowances (id, owner, spender) < amount →
      transfer_from s spender id owner toA amount
        = (.error .InsufficientAllowance, s)) ∧
    (amount ≠ 0 → amount ≤ alookup s.allowances (id, owner, spender) →
      alookup s.balances (id, owner) < amount →
      transfer_from s spender id owner toA amount
        = (.error .InsufficientFunds, s)) ∧
    (amount ≠ 0 → amount ≤ alookup s.allowances (id, owner, spender) →
      amount ≤ alookup s.balances (id, owner) →
      (transfer_from s spender id owner toA amount).1 = .ok () ∧
      (transfer_from s spender id owner toA amount).2.balances
        = (do_transfer s id owner toA amount).2.balances ∧
      alookup (transfer_from s spender id owner toA amount).2.allowances
          (id, owner, spender)
        = alookup s.allowances (id, owner, spender) - amount) := by
  refine ⟨?_, ?_, ?_, ?_⟩
  · intro h0
    simp [transfer_from, h0]
  · intro h0 hlt
    simp [transfer_from, h0, hlt]
  · intro h0 hge hbal
    have hnlt : ¬ alookup s.allowances (id, owner, spender) < amount :=
      Nat.not_lt.mpr hge
    simp [transfer_from, h0, hnlt, do_transfer_err s id owner toA amount hbal]
  · intro h0 hge hbal
    have hnlt : ¬ alookup s.allowances (id, owner, spender) < amount :=
      Nat.not_lt.mpr hge
    have hnb : ¬ alookup s.balances (id, owner) < amount :=
      Nat.not_lt.mpr hbal
    have hau : alookup s.allowances (id, owner, spender) < U :=
      alookup_lt s.allowances (id, owner, spender) U (by decide) hWF.2.1
    refine ⟨?_, ?_, ?_⟩
    · simp [transfer_from, do_transfer, h0, hnlt, hnb]
    · simp [transfer_from, do_transfer, h0, hnlt, hnb]
    · simp [transfer_from, do_transfer, h0, hnlt, hnb, alookup_aset_self]
      exact wsub_eq_sub hge hau

/-- C7 witness: in the repository's own allowance scenario (owner 1 approved
spender 2 for 20 of asset 0), spender 2 moves 10 from owner 1 to account 3
and the allowance drops to 10. -/
theorem transfer_from_spec_witness :
    (transfer_from sAllow 2 0 1 3 10).1 = .ok () ∧
    alookup (transfer_from sAllow 2 0 1 3 10).2.allowances (0, 1, 2) = 10 := by
  have h := (transfer_from_spec sAllow 0 1 2 3 10
    (by unfold WFf; refine ⟨?_, ?_, ?_⟩ <;> decide)).2.2.2
    (by decide) (by decide) (by decide)
  exact ⟨h.1, by rw [h.2.2]; decide⟩

/-- C8 (amended): `transfer` fails with the zero-amount error when
`amount = 0` and with `InsufficientFunds` when the sender's balance is below
`amount`, in both cases leaving the state unchanged; on success with distinct
accounts it decreases the sender's balance by `amount` and sets the
recipient's balance to `(old + amount) mod 2^64` — an increase by `amount`
whenever that sum stays below `2^64`; a self-transfer succeeds and leaves the
balance unchanged. -/
theorem transfer_spec (s : FungibleState) (id fromA toA amount : Nat)
    (hWF : WFf s) :
    (amount = 0 →
      transfer s fromA id toA amount = (.error .TransferZeroAmount, s)) ∧
    (amount ≠ 0 → alookup s.balances (id, fromA) < amount →
      transfer s fromA id toA amount = (.error .InsufficientFunds, s)) ∧
    (amount ≠ 0 → amount ≤ alookup s.balances (id, fromA) → fromA ≠ toA →
      (transfer s fromA id toA amount).1 = .ok () ∧
      alookup (transfer s fromA id toA amount).2.balances (id, fromA)
        = alookup s.balances (id, fromA) - amount ∧
      alookup (transfer s fromA id toA amount).2.balances (id, toA)
        = (alookup s.balances (id, toA) + amount) % U ∧
      (alookup s.balances (id, toA) + amount < U →
        alookup (transfer s fromA id toA amount).2.balances (id, toA)
          = alookup s.balances (id, toA) + amount)) ∧
    (amount ≠ 0 → amount ≤ alookup s.balances (id, fromA) →
      (transfer s fromA id fromA amount).1 = .ok () ∧
      alookup (transfer s fromA id fromA amount).2.balances (id, fromA)
        = alookup s.balances (id, fromA)) := by
  have hbu : alookup s.balances (id, fromA) < U :=
    alookup_lt s.balances (id, fromA) U (by decide) hWF.1
  refine ⟨?_, ?_, ?_, ?_⟩
  · intro h0
    simp [transfer, h0]
  · intro h0 hlt
    simp [transfer, h0, do_transfer_err s id fromA toA amount hlt]
  · intro h0 hge hne
    have hk1 : ((id, toA) : Nat × Nat) ≠ (id, fromA) := by
      simpa using fun h => hne h.symm
    have hk2 : ((id, fromA) : Nat × Nat) ≠ (id, toA) := by
      simpa using hne
    refine ⟨?_, ?_, ?_, ?_⟩
    · simp [transfer, h0, do_transfer_ok_fst s id fromA toA amount hge]
    · simp only [transfer, if_neg h0,
        do_transfer_ok_balances s id fromA toA amount hge]
      rw [alookup_aset_ne _ _ _ _ hk2, alookup_aset_self]
      exact wsub_eq_sub hge hbu
    · simp only [transfer, if_neg h0,
        do_transfer_ok_balances s id fromA toA amount hge]
      rw [alookup_aset_self, alookup_aset_ne _ _ _ _ hk1]
      rfl
    · intro hsmall
      simp only [transfer, if_neg h0,
        do_transfer_ok_balances s id fromA toA amount hge]
      rw [alookup_aset_self, alookup_aset_ne _ _ _ _ hk1]
      exact wadd_eq_add hsmall
  · intro h0 hge
    refine ⟨?_, ?_⟩
    · simp [transfer, h0, do_transfer_ok_fst s id fromA fromA amount hge]
    · simp only [transfer, if_neg h0,
        do_transfer_ok_balances s id fromA fromA amount hge]
      rw [alookup_aset_self, alookup_aset_self]
      rw [wsub_eq_sub hge hbu]
      unfold wadd
      rw [Nat.sub_add_cancel hge]
      exact Nat.mod_eq_of_lt hbu

/-- C8 witness: Scenario B — account 1 transfers 22 of asset 0 to account 2,
leaving balances 20 and 22. -/
theorem transfer_spec_witness :
    (transfer sOwn 1 0 2 22).1 = .ok () ∧
    alookup (transfer sOwn 1 0 2 22).2.balances (0, 1) = 20 ∧
    alookup (transfer sOwn 1 0 2 22).2.balances (0, 2) = 22 := by
  have h := (transfer_spec sOwn 0 1 2 22
    (by unfold WFf; refine ⟨?_, ?_, ?_⟩ <;> decide)).2.2.1
    (by decide) (by decide) (by decide)
  refine ⟨h.1, ?_, ?_⟩
  · rw [h.2.1]
    decide
  · rw [h.2.2.2 (by decide)]
    decide

/-- C8 counterexample: with the recipient at the `u64` ceiling, a successful
transfer of 1 wraps the recipient's balance to 0 instead of increasing it by
the amount, refuting the claim's unconditional "increases balance(id, to) by
amount". -/
theorem transfer_credit_wrap_cex :
    (transfer sCeil 1 0 2 1).1 = .ok () ∧
    alookup (transfer sCeil 1 0 2 1).2.balances (0, 2) = 0 ∧
    alookup sCeil.balances (0, 2) + 1 ≠ 0 := ⟨rfl, rfl, by decide⟩

/-- C9 (amended): approving `a` and then `b` adds both to the existing
allowance with `u64` addition, so the result is `(c + a + b) mod 2^64` —
equal to `c + a + b` (additive, not set or max, semantics) whenever that sum
stays below `2^64`; a zero-amount approval fails with the zero-amount error
and leaves the state unchanged. -/
theorem approve_spec (s : FungibleState) (owner id spender a b : Nat)
    (ha : a ≠ 0) (hb : b ≠ 0) :
    (approve s owner id spender a).1 = .ok () ∧
    (approve (approve s owner id spender a).2 owner id spender b).1
      = .ok () ∧
    alookup (approve (approve s owner id spender a).2 owner id
        spender b).2.allowances (id, owner, spender)
      = (alookup s.allowances (id, owner, spender) + a + b) % U ∧
    (alookup s.allowances (id, owner, spender) + a + b < U →
      alookup (approve (approve s owner id spender a).2 owner id
          spender b).2.allowances (id, owner, spender)
        = alookup s.allowances (id, owner, spender) + a + b) ∧
    approve s owner id spender 0 = (.error .TransferZeroAmount, s) := by
  have hmod :
      alookup (approve (approve s owner id spender a).2 owner id
          spender b).2.allowances (id, owner, spender)
        = (alookup s.allowances (id, owner, spender) + a + b) % U := by
    simp only [approve, if_neg ha, if_neg hb]
    rw [alookup_aset_self, alookup_aset_self]
    unfold wadd
    rw [Nat.mod_add_mod]
  refine ⟨by simp [approve, ha], by simp [approve, ha, hb], hmod, ?_, ?_⟩
  · intro hsmall
    rw [hmod]
    exact Nat.mod_eq_of_lt hsmall
  · simp [approve]

/-- C9 witness: from a zero starting allowance, approving 20 and then 22
yields allowance 42. -/
theorem approve_spec_witness :
    alookup (approve (approve emptyF 1 0 2 20).2 1 0 2 22).2.allowances
      (0, 1, 2) = 42 := by
  have h := approve_spec emptyF 1 0 2 20 22 (by decide) (by decide)
  rw [h.2.2.2.1 (by decide)]
  decide

/-- C9 counterexample: two approvals of `2^63` each, from a zero starting
allowance, wrap to allowance 0 rather than `2^64`, refuting the claim's
unconditional `c + a + b`. -/
theorem approve_wrap_cex :
    (approve (approve emptyF 1 0 2 9223372036854775808).2 1 0 2
        9223372036854775808).1 = .ok () ∧
    alookup (approve (approve emptyF 1 0 2 9223372036854775808).2 1 0 2
        9223372036854775808).2.allowances (0, 1, 2) = 0 ∧
    alookup emptyF.allowances (0, 1, 2) + 9223372036854775808
      + 9223372036854775808 ≠ 0 := ⟨rfl, rfl, by decide⟩

/-- C6 (amended): `get_input_price` computes
`(input_amount * 997) * output_reserve / (input_reserve * 1000 + input_amount * 997)`
exactly whenever the fee product, the numerator, and the denominator all fit
in `u64`; Scenario E holds: `get_input_price 300 420 42 = 17`, and selling
300 currency into the seeded pool (reserves 420/42) sends 17 tokens to the
buyer and leaves reserves currency = 720, token = 25. -/
theorem get_input_price_spec (input_amount input_reserve output_reserve : Nat)
    (h1 : input_amount * 997 < U)
    (h2 : input_amount * 997 * output_reserve < U)
    (h3 : input_reserve * 1000 + input_amount * 997 < U)
    (h0 : input_reserve * 1000 + input_amount * 997 ≠ 0) :
    get_input_price input_amount input_reserve output_reserve
      = some (input_amount * 997 * output_reserve
          / (input_reserve * 1000 + input_amount * 997)) ∧
    get_input_price 300 420 42 = some 17 ∧
    (currency_to_tokens_input wSeeded 2 0 300 1 100 2).map (fun p =>
        (alookup p.2.fungible.balances (0, 2), alookup p.2.currency resAcct,
          alookup p.2.fungible.balances (0, resAcct)))
      = some (17, 720, 25) ∧
    (currency_to_tokens_input wSeeded 2 0 300 1 100 2).map (fun p => p.1)
      = some (.ok ()) := by
  refine ⟨?_, rfl, rfl, rfl⟩
  have hA : input_reserve * 1000 < U :=
    lt_of_le_of_lt (Nat.le_add_right _ _) h3
  simp only [get_input_price, wmul, wadd]
  rw [Nat.mod_eq_of_lt h1, Nat.mod_eq_of_lt h2, Nat.mod_eq_of_lt hA,
    Nat.mod_eq_of_lt h3, if_neg h0]

/-- C6 witness: the amended formula applied at Scenario E's arguments. -/
theorem get_input_price_spec_witness :
    get_input_price 300 420 42
      = some (300 * 997 * 42 / (420 * 1000 + 300 * 997)) :=
  (get_input_price_spec 300 420 42 (by decide) (by decide) (by decide)
    (by decide)).1

/-- C6 counterexample: at `input_amount = input_reserve = 2^60`,
`output_reserve = 10` (nonzero true denominator), the `u64` products wrap and
the source returns 0 while the claimed formula gives 4. -/
theorem get_input_price_overflow_cex :
    get_input_price 1152921504606846976 1152921504606846976 10 = some 0 ∧
    1152921504606846976 * 997 * 10
      / (1152921504606846976 * 1000 + 1152921504606846976 * 997) = 4 ∧
    (0 : Nat) ≠ 4 := ⟨rfl, by decide, by decide⟩

/-- C1: `add_liquidity` on a seeded pool is not atomic.  Account 2 holds
10000 currency but no pooled tokens; the call moves 100 currency into the
reserve account and mints 100 shares before the token transfer fails with
`InsufficientFunds`, and `decl_module`-era dispatch performs no rollback, so
the error is reported with the currency already moved and the shares already
minted. -/
theorem add_liquidity_not_atomic :
    (add_liquidity wSeeded 2 0 100 1 100 100).map (fun p =>
        (alookup p.2.currency 2, alookup p.2.currency resAcct,
          alookup p.2.fungible.balances (1, 2)))
      = some (9900, 520, 100) ∧
    (add_liquidity wSeeded 2 0 100 1 100 100).map (fun p => p.1)
      = some (.error .InsufficientFunds) ∧
    alookup wSeeded.currency 2 = 10000 ∧
    alookup wSeeded.currency resAcct = 420 ∧
    alookup wSeeded.fungible.balances (1, 2) = 0 := ⟨rfl, rfl, rfl, rfl, rfl⟩

/-- C2: invariant I1 fails.  Starting from the empty ledger,
`create_token(1, 2^63)` then `mint(0, 2, 2^63)` wraps the total supply of
asset 0 to 0 while the per-owner balances sum to `2^64`. -/
theorem supply_sum_invariant_broken :
    (create_token emptyF 1 9223372036854775808).map (fun p =>
        (alookup (mint p.1 0 2 9223372036854775808).2.totalSupply 0,
          balSum (mint p.1 0 2 9223372036854775808).2.balances 0))
      = some (0, 18446744073709551616) ∧
    (0 : Nat) ≠ 18446744073709551616 := ⟨rfl, by decide⟩

/-- C3: `burn` performs no balance check.  Burning 5 of asset 0 from account
1 on the empty ledger returns `Ok` and wraps both the balance and the total
supply to `2^64 - 5` instead of failing with `InsufficientFunds`. -/
theorem burn_wraps_without_check :
    (burn emptyF 0 1 5).1 = .ok () ∧
    alookup (burn emptyF 0 1 5).2.balances (0, 1) = U - 5 ∧
    alookup (burn emptyF 0 1 5).2.totalSupply 0 = U - 5 := ⟨rfl, rfl, rfl⟩

/-- C4: `get_output_price` has no pool-drain guard.  At
`output_amount = output_reserve = 42` the denominator is zero and the source
divides by zero (a panic, embedded as `none`), and at `output_amount = 43`
the `u64` subtraction wraps and a spurious price of 1 is returned — in
neither case is a `DivisionByZero`/`PoolDrained` error produced. -/
theorem get_output_price_no_drain_check :
    get_output_price 42 420 42 = none ∧
    get_output_price 43 420 42 = some 1 := ⟨rfl, rfl⟩

/-- C5: `mint` performs no overflow check.  With account 1 holding
`2^64 - 1` of asset 0 (the full supply), minting 1 more returns `Ok` and
wraps both the balance and the total supply to 0 instead of failing with
`Overflow` and leaving them unchanged. -/
theorem mint_wraps_at_max :
    (mint sMaxed 0 1 1).1 = .ok () ∧
    alookup (mint sMaxed 0 1 1).2.balances (0, 1) = 0 ∧
    alookup (mint sMaxed 0 1 1).2.totalSupply 0 = 0 := ⟨rfl, rfl, rfl⟩

/-- C10: in `tokens_to_currency_output` the input leg is not paid by the
caller.  Buyer 2 requests 135 currency with recipient 3: the source debits
the 20 sold tokens from recipient 3 (30 → 10) and credits the 135 currency
to caller 2 (10000 → 10135), while caller 2's token balance and recipient
3's currency balance are untouched. -/
theorem tokens_to_currency_output_debits_recipient :
    (tokens_to_currency_output wTraders 2 0 135 1000 100 3).map (fun p =>
        (alookup p.2.fungible.balances (0, 2),
          alookup p.2.fungible.balances (0, 3),
          alookup p.2.currency 2, alookup p.2.currency 3))
      = some (42, 10, 10135, 5000) ∧
    (tokens_to_currency_output wTraders 2 0 135 1000 100 3).map (fun p => p.1)
      = some (.ok ()) ∧
    alookup wTraders.fungible.balances (0, 3) = 30 ∧
    alookup wTraders.currency 2 = 10000 := ⟨rfl, rfl, rfl, rfl⟩

end PalletSwaps
